import Mathlib

/-!
Verification of the core business logic of the Claude Code Workspace
Manager (`workspace_core.py`): the JSON document store with schema
migration, the entity repositories (workspaces, groups, templates,
history), the command builder, and import/export.

Modelling conventions:
* A JSON object holding a workspace record is a `WS`: every field is an
  `Option`, `none` meaning the key is absent from the dict.  Python's
  `dict.get(k, d)` becomes `Option.getD`, and `{**a, **b}` becomes the
  field-wise right-biased merge `pMerge`.
* Python dicts (insertion ordered, unique keys) are association lists
  `Dict α`; assignment `d[k] = v` is `dictInsert` (update in place if the
  key exists, append otherwise), `d.pop(k)` is `dictErase`.
* Python's `str.strip()` is `pyStrip`, dropping ASCII whitespace from
  both ends.
* The backing file is a `DiskState`; `load_data`/`save_data` act on it
  explicitly, so "no save happened" is visible as an unchanged disk.
* Timestamps (`datetime.now().isoformat()`) and fresh history ids
  (`uuid4`) are nondeterministic inputs, passed as explicit arguments.
-/

-- ============================================================
-- Dicts (Python dict as insertion-ordered association list)
-- ============================================================

abbrev Dict (α : Type) := List (String × α)

def dictGet {α : Type} (k : String) : Dict α → Option α
  | [] => none
  | (k', v) :: r => if k' = k then some v else dictGet k r

def dictContains {α : Type} (k : String) (d : Dict α) : Bool :=
  (dictGet k d).isSome

def dictInsert {α : Type} (k : String) (v : α) : Dict α → Dict α
  | [] => [(k, v)]
  | (k', v') :: r => if k' = k then (k, v) :: r else (k', v') :: dictInsert k v r

def dictErase {α : Type} (k : String) : Dict α → Dict α
  | [] => []
  | (k', v') :: r => if k' = k then r else (k', v') :: dictErase k r

def dictValues {α : Type} (d : Dict α) : List α := d.map Prod.snd

-- ============================================================
-- Python `str.strip()`
-- ============================================================

def isPySpace (c : Char) : Bool :=
  c = ' ' || c = '\t' || c = '\n' || c = '\r' || c = '\x0b' || c = '\x0c'

def pyStrip (s : String) : String :=
  String.mk (((s.toList.dropWhile isPySpace).reverse.dropWhile isPySpace).reverse)

-- ============================================================
-- Workspace records (JSON objects with possibly-missing keys)
-- ============================================================

structure WS where
  name : Option String := none
  description : Option String := none
  working_dir : Option String := none
  additional_dirs : Option (List String) := none
  model : Option String := none
  fallback_model : Option String := none
  skip_permissions : Option Bool := none
  permission_mode : Option String := none
  allowed_tools : Option (List String) := none
  disallowed_tools : Option (List String) := none
  append_system_prompt : Option String := none
  system_prompt_file : Option String := none
  mcp_config : Option String := none
  strict_mcp : Option Bool := none
  agent : Option String := none
  verbose : Option Bool := none
  debug_categories : Option String := none
  env_vars : Option (Dict String) := none
  ide : Option String := none
  open_folder_in_ide : Option Bool := none
  init_claude_md : Option Bool := none
  claude_md_content : Option String := none
  created : Option String := none
  last_used : Option String := none
  use_count : Option Nat := none
  group : Option String := none
  template_source : Option String := none
deriving DecidableEq

/-- `DEFAULT_WORKSPACE`: the full default field set (every key present). -/
def DEFAULT_WORKSPACE : WS :=
  { name := some ""
    description := some ""
    working_dir := some ""
    additional_dirs := some []
    model := some ""
    fallback_model := some ""
    skip_permissions := some false
    permission_mode := some ""
    allowed_tools := some []
    disallowed_tools := some []
    append_system_prompt := some ""
    system_prompt_file := some ""
    mcp_config := some ""
    strict_mcp := some false
    agent := some ""
    verbose := some false
    debug_categories := some ""
    env_vars := some []
    ide := some "terminal"
    open_folder_in_ide := some false
    init_claude_md := some false
    claude_md_content := some ""
    created := some ""
    last_used := some ""
    use_count := some 0
    group := some ""
    template_source := some "" }

/-- Python dict merge `{**a, **b}` on workspace records: a key present in
`b` wins, otherwise the key of `a` is used (absent stays absent). -/
def pMerge (a b : WS) : WS :=
  { name := b.name <|> a.name
    description := b.description <|> a.description
    working_dir := b.working_dir <|> a.working_dir
    additional_dirs := b.additional_dirs <|> a.additional_dirs
    model := b.model <|> a.model
    fallback_model := b.fallback_model <|> a.fallback_model
    skip_permissions := b.skip_permissions <|> a.skip_permissions
    permission_mode := b.permission_mode <|> a.permission_mode
    allowed_tools := b.allowed_tools <|> a.allowed_tools
    disallowed_tools := b.disallowed_tools <|> a.disallowed_tools
    append_system_prompt := b.append_system_prompt <|> a.append_system_prompt
    system_prompt_file := b.system_prompt_file <|> a.system_prompt_file
    mcp_config := b.mcp_config <|> a.mcp_config
    strict_mcp := b.strict_mcp <|> a.strict_mcp
    agent := b.agent <|> a.agent
    verbose := b.verbose <|> a.verbose
    debug_categories := b.debug_categories <|> a.debug_categories
    env_vars := b.env_vars <|> a.env_vars
    ide := b.ide <|> a.ide
    open_folder_in_ide := b.open_folder_in_ide <|> a.open_folder_in_ide
    init_claude_md := b.init_claude_md <|> a.init_claude_md
    claude_md_content := b.claude_md_content <|> a.claude_md_content
    created := b.created <|> a.created
    last_used := b.last_used <|> a.last_used
    use_count := b.use_count <|> a.use_count
    group := b.group <|> a.group
    template_source := b.template_source <|> a.template_source }

-- ============================================================
-- Command generation (`build_command`)
-- ============================================================

/-- `build_command(ws)`: build the Claude CLI argument vector from a
workspace record.  Straight-line translation of the source: `cmd` starts
as `["claude"]` and each block appends its flags; `ws.get(key)` truthiness
is `getD` against the falsy default. -/
def build_command (ws : WS) : List String :=
  let cmd := ["claude"]
  let cmd := if ws.model.getD "" ≠ "" then cmd ++ ["--model", ws.model.getD ""] else cmd
  let cmd := if ws.fallback_model.getD "" ≠ "" then cmd ++ ["--fallback-model", ws.fallback_model.getD ""] else cmd
  let cmd := if ws.skip_permissions.getD false then cmd ++ ["--dangerously-skip-permissions"] else cmd
  let cmd := if ws.permission_mode.getD "" ≠ "" then cmd ++ ["--permission-mode", ws.permission_mode.getD ""] else cmd
  let cmd := cmd ++ (ws.allowed_tools.getD []).flatMap (fun tool => ["--allowedTools", tool])
  let cmd := cmd ++ (ws.disallowed_tools.getD []).flatMap (fun tool => ["--disallowedTools", tool])
  let cmd := if ws.append_system_prompt.getD "" ≠ "" then cmd ++ ["--append-system-prompt", ws.append_system_prompt.getD ""] else cmd
  let cmd := if ws.system_prompt_file.getD "" ≠ "" then cmd ++ ["--system-prompt-file", ws.system_prompt_file.getD ""] else cmd
  let cmd := if ws.mcp_config.getD "" ≠ "" then cmd ++ ["--mcp-config", ws.mcp_config.getD ""] else cmd
  let cmd := if ws.strict_mcp.getD false then cmd ++ ["--strict-mcp-config"] else cmd
  let cmd := if ws.agent.getD "" ≠ "" then cmd ++ ["--agent", ws.agent.getD ""] else cmd
  let cmd := if ws.verbose.getD false then cmd ++ ["--verbose"] else cmd
  let cmd := if ws.debug_categories.getD "" ≠ "" then cmd ++ ["--debug", ws.debug_categories.getD ""] else cmd
  let cmd := cmd ++ (ws.additional_dirs.getD []).flatMap
    (fun d => if pyStrip d ≠ "" then ["--add-dir", pyStrip d] else [])
  cmd

/-- The argument vector as the specification describes it: the program
name literal followed by the fixed-order flag sections and nothing else. -/
def buildCommandSpec (ws : WS) : List String :=
  ["claude"]
  ++ (if ws.model.getD "" ≠ "" then ["--model", ws.model.getD ""] else [])
  ++ (if ws.fallback_model.getD "" ≠ "" then ["--fallback-model", ws.fallback_model.getD ""] else [])
  ++ (if ws.skip_permissions.getD false then ["--dangerously-skip-permissions"] else [])
  ++ (if ws.permission_mode.getD "" ≠ "" then ["--permission-mode", ws.permission_mode.getD ""] else [])
  ++ (ws.allowed_tools.getD []).flatMap (fun tool => ["--allowedTools", tool])
  ++ (ws.disallowed_tools.getD []).flatMap (fun tool => ["--disallowedTools", tool])
  ++ (if ws.append_system_prompt.getD "" ≠ "" then ["--append-system-prompt", ws.append_system_prompt.getD ""] else [])
  ++ (if ws.system_prompt_file.getD "" ≠ "" then ["--system-prompt-file", ws.system_prompt_file.getD ""] else [])
  ++ (if ws.mcp_config.getD "" ≠ "" then ["--mcp-config", ws.mcp_config.getD ""] else [])
  ++ (if ws.strict_mcp.getD false then ["--strict-mcp-config"] else [])
  ++ (if ws.agent.getD "" ≠ "" then ["--agent", ws.agent.getD ""] else [])
  ++ (if ws.verbose.getD false then ["--verbose"] else [])
  ++ (if ws.debug_categories.getD "" ≠ "" then ["--debug", ws.debug_categories.getD ""] else [])
  ++ (ws.additional_dirs.getD []).flatMap
    (fun d => if pyStrip d ≠ "" then ["--add-dir", pyStrip d] else [])

theorem append_ite_append {c : Prop} [Decidable c] (l x : List String) :
    (if c then l ++ x else l) = l ++ (if c then x else []) := by
  split <;> simp

/-- The record of the spec's first example:
`{name: "demo", model: "opus", allowed_tools: ["Read","Bash"]}`. -/
def demoRecord : WS :=
  { name := some "demo", model := some "opus", allowed_tools := some ["Read", "Bash"] }

/-- The record of the spec's second example:
`additional_dirs: ["  ", "/tmp/proj", ""]`, no other key set. -/
def dirsRecord : WS :=
  { additional_dirs := some ["  ", "/tmp/proj", ""] }

/-- C1: `build_command` produces exactly the fixed-order argument vector
described by the spec (program name, then the model / permission / tool /
prompt / mcp / agent / verbose-debug / add-dir sections, nothing else);
in particular the `demo` record yields
`claude --model opus --allowedTools Read --allowedTools Bash`, and
`additional_dirs = ["  ", "/tmp/proj", ""]` yields exactly one trimmed
`--add-dir /tmp/proj` with blank entries producing no flag. -/
theorem build_command_matches_spec :
    (∀ ws : WS, build_command ws = buildCommandSpec ws)
    ∧ build_command demoRecord
      = ["claude", "--model", "opus", "--allowedTools", "Read", "--allowedTools", "Bash"]
    ∧ build_command dirsRecord
      = ["claude", "--add-dir", "/tmp/proj"] := by
  refine ⟨fun ws => ?_, by decide, by decide⟩
  simp only [build_command, buildCommandSpec, append_ite_append]

-- ============================================================
-- Document model (the persisted JSON file)
-- ============================================================

structure GroupRec where
  order : Option Nat := none
  color : Option String := none
deriving DecidableEq

structure Template where
  name : Option String := none
  description : Option String := none
  icon : Option String := none
  builtin : Option Bool := none
  config : Option WS := none
deriving DecidableEq

structure HistoryEntry where
  id : String
  workspace_name : String
  working_dir : String
  launched_at : String
deriving DecidableEq

structure Settings where
  history_limit : Option Nat := none
deriving DecidableEq

/-- The whole persisted document; `none` means the key is absent. -/
structure Doc where
  version : Option Nat := none
  workspaces : Option (Dict WS) := none
  groups : Option (Dict GroupRec) := none
  templates : Option (Dict Template) := none
  history : Option (List HistoryEntry) := none
  settings : Option Settings := none
deriving DecidableEq

def DATA_VERSION : Nat := 2

/-- `get_default_data()`: default v2 data structure. -/
def get_default_data : Doc :=
  { version := some DATA_VERSION
    workspaces := some []
    groups := some []
    templates := some []
    history := some []
    settings := some { history_limit := some 20 } }

/-- Body of the migration loop: backfill `group` and `template_source`
with `""` on a workspace record when the key is absent. -/
def migrateEntry (ws : WS) : WS :=
  let ws := if ws.group = none then { ws with group := some "" } else ws
  if ws.template_source = none then { ws with template_source := some "" } else ws

/-- `migrate_v1_to_v2(old_data)`: wrap the flat workspace map into a fresh
default document and backfill each record. -/
def migrate_v1_to_v2 (old_data : Dict WS) : Doc :=
  let new_data := get_default_data
  { new_data with workspaces := some (old_data.map (fun p => (p.1, migrateEntry p.2))) }

/-- Content of the backing file, as `json.load` sees it.  The constructor
records whether the parsed object has a `version` key (the only thing
`load_data` inspects before deciding to migrate). -/
inductive FileData where
  | noVersion (m : Dict WS)
  | withVersion (d : Doc)
deriving DecidableEq

/-- State of the backing file on disk.  `malformed` covers both content
that fails to parse as JSON and reads that raise `IOError`. -/
inductive DiskState where
  | absent
  | malformed
  | stored (f : FileData)
deriving DecidableEq

/-- The `for key in default: if key not in data: data[key] = default[key]`
loop of `load_data`. -/
def fillDefaults (d : Doc) : Doc :=
  { version := d.version <|> get_default_data.version
    workspaces := d.workspaces <|> get_default_data.workspaces
    groups := d.groups <|> get_default_data.groups
    templates := d.templates <|> get_default_data.templates
    history := d.history <|> get_default_data.history
    settings := d.settings <|> get_default_data.settings }

/-- `save_data(data)`: stamp the current schema version onto the document
(mutating it) and overwrite the backing file in full.  Returns the
mutated in-memory document alongside the new disk state. -/
def save_data (d : Doc) : Doc × DiskState :=
  let d := { d with version := some DATA_VERSION }
  (d, DiskState.stored (FileData.withVersion d))

/-- `load_data()`: load the document with auto-migration.  Returns the
loaded document together with the disk state after the call (the disk
changes only on the migration path, which saves). -/
def load_data : DiskState → Doc × DiskState
  | DiskState.absent => (get_default_data, DiskState.absent)
  | DiskState.malformed => (get_default_data, DiskState.malformed)
  | DiskState.stored (FileData.noVersion m) =>
      let r := save_data (migrate_v1_to_v2 m)
      (fillDefaults r.1, r.2)
  | DiskState.stored (FileData.withVersion d) =>
      (fillDefaults d, DiskState.stored (FileData.withVersion d))

/-- C7: loading a backing file whose content fails to parse (or whose
read raises an I/O failure) returns the fresh default document — current
schema version, all collections empty, `history_limit` 20 — and performs
no save: the disk state is unchanged, the malformed file not overwritten. -/
theorem load_data_malformed_returns_default_without_save :
    load_data DiskState.malformed
      = (Doc.mk (some 2) (some []) (some []) (some []) (some [])
          (some (Settings.mk (some 20))),
         DiskState.malformed) := rfl

/-- Backfill as the spec words it: the original record with `group` set
to `""` when it lacked that key (its value kept otherwise), and likewise
`template_source`. -/
def backfillEntrySpec (ws : WS) : WS :=
  { ws with group := some (ws.group.getD "")
            template_source := some (ws.template_source.getD "") }

def backfillMapSpec (m : Dict WS) : Dict WS :=
  m.map (fun p => (p.1, backfillEntrySpec p.2))

theorem migrateEntry_eq_backfill (ws : WS) : migrateEntry ws = backfillEntrySpec ws := by
  obtain ⟨n, de, wd, ad, mo, fm, sp, pm, alt, dt, asp, spf, mc, sm, ag, vb, dc, ev,
    de2, ofi, ic, cc, cr, lu, uc, gr, ts⟩ := ws
  rcases gr with _ | g <;> rcases ts with _ | t <;>
    simp [migrateEntry, backfillEntrySpec]

/-- C3: loading a persisted document that lacks a `version` key yields a
document whose workspace map is the original flat map with `group` and
`template_source` backfilled to `""` on entries lacking them, all other
collections empty and `history_limit` 20; the migrated document is
persisted with a version key, and loading again performs no migration and
returns the very same document and disk state (idempotent). -/
theorem load_data_migrates_flat_map (m : Dict WS) :
    ((load_data (DiskState.stored (FileData.noVersion m))).1.workspaces
        = some (backfillMapSpec m))
    ∧ (load_data (DiskState.stored (FileData.noVersion m))).1.version = some DATA_VERSION
    ∧ (load_data (DiskState.stored (FileData.noVersion m))).1.groups = some []
    ∧ (load_data (DiskState.stored (FileData.noVersion m))).1.templates = some []
    ∧ (load_data (DiskState.stored (FileData.noVersion m))).1.history = some []
    ∧ (load_data (DiskState.stored (FileData.noVersion m))).1.settings
        = some (Settings.mk (some 20))
    ∧ (∃ d2 : Doc, (load_data (DiskState.stored (FileData.noVersion m))).2
        = DiskState.stored (FileData.withVersion d2) ∧ d2.version = some DATA_VERSION)
    ∧ load_data (load_data (DiskState.stored (FileData.noVersion m))).2
        = load_data (DiskState.stored (FileData.noVersion m)) := by
  have hmap : m.map (fun p => (p.1, migrateEntry p.2))
      = m.map (fun p => (p.1, backfillEntrySpec p.2)) := by
    have hf : (fun p : String × WS => (p.1, migrateEntry p.2))
        = fun p : String × WS => (p.1, backfillEntrySpec p.2) :=
      funext fun p => by rw [migrateEntry_eq_backfill]
    rw [hf]
  refine ⟨?_, rfl, rfl, rfl, rfl, rfl,
    ⟨(save_data (migrate_v1_to_v2 m)).1, rfl, rfl⟩, rfl⟩
  · simp [load_data, save_data, migrate_v1_to_v2, fillDefaults, get_default_data,
      backfillMapSpec, hmap]

-- ============================================================
-- Dict lemmas
-- ============================================================

theorem dictGet_insert_self {α : Type} (k : String) (v : α) (m : Dict α) :
    dictGet k (dictInsert k v m) = some v := by
  induction m with
  | nil => simp [dictInsert, dictGet]
  | cons p r ih =>
      obtain ⟨k', v'⟩ := p
      by_cases h : k' = k <;> simp [dictInsert, dictGet, h, ih]

theorem dictInsert_of_not_contains {α : Type} (k : String) (v : α) (m : Dict α)
    (h : dictContains k m = false) : dictInsert k v m = m ++ [(k, v)] := by
  induction m with
  | nil => simp [dictInsert]
  | cons p r ih =>
      obtain ⟨k', v'⟩ := p
      simp only [dictContains, dictGet] at h
      by_cases hk : k' = k
      · simp [hk] at h
      · simp only [dictInsert, if_neg hk, List.cons_append, List.cons.injEq, true_and]
        exact ih (by simpa [dictContains, hk] using h)

-- ============================================================
-- Workspace repository (on the in-memory document)
-- ============================================================

/-- `load_workspaces()`: `load_data().get("workspaces", {})`, specialised
to a present, versioned backing document `d` (for which `load_data` is
`fillDefaults` and touches no disk; the migration and error paths are
covered by `load_data` on `DiskState`). -/
def load_workspaces (d : Doc) : Dict WS :=
  (fillDefaults d).workspaces.getD []

/-- `save_workspaces(workspaces)`: re-load the document, replace its
`workspaces` slice, and `save_data` it.  The result is the document now
on disk. -/
def save_workspaces (d : Doc) (workspaces : Dict WS) : Doc :=
  (save_data { fillDefaults d with workspaces := some workspaces }).1

def load_groups (d : Doc) : Dict GroupRec :=
  (fillDefaults d).groups.getD []

def save_groups (d : Doc) (groups : Dict GroupRec) : Doc :=
  (save_data { fillDefaults d with groups := some groups }).1

/-- `create_workspace(workspace)`: create or update a workspace.  `now`
is the caller-supplied current timestamp.  Returns the saved document and
the stored record, or the `ValueError` message for a blank name. -/
def create_workspace (d : Doc) (workspace : WS) (now : String) :
    Except String (Doc × WS) :=
  let name := pyStrip (workspace.name.getD "")
  if name = "" then Except.error "Workspace name is required"
  else
    let workspaces := load_workspaces d
    let ws := pMerge DEFAULT_WORKSPACE workspace
    let ws := match dictGet name workspaces with
      | none => { ws with created := some now }
      | some old => { ws with created := some (old.created.getD now) }
    Except.ok (save_workspaces d (dictInsert name ws workspaces), ws)

theorem load_save_workspaces (d : Doc) (m : Dict WS) :
    load_workspaces (save_workspaces d m) = m := rfl

/-- C2: for an input whose trimmed name is non-empty, `create_workspace`
preserves the existing record's `created` timestamp in the newly stored
record when the (trimmed) name is already a key of the stored workspace
map, and stamps `created` with the current timestamp when the name is
new. -/
theorem create_workspace_created_stable (d : Doc) (input : WS) (now : String)
    (hname : pyStrip (input.name.getD "") ≠ "") :
    (∀ old, dictGet (pyStrip (input.name.getD "")) (load_workspaces d) = some old →
      ∃ r, create_workspace d input now = Except.ok r ∧
        dictGet (pyStrip (input.name.getD "")) (load_workspaces r.1) = some r.2 ∧
        r.2.created = some (old.created.getD now) ∧
        ∀ t, old.created = some t → r.2.created = some t)
    ∧ (dictGet (pyStrip (input.name.getD "")) (load_workspaces d) = none →
      ∃ r, create_workspace d input now = Except.ok r ∧
        dictGet (pyStrip (input.name.getD "")) (load_workspaces r.1) = some r.2 ∧
        r.2.created = some now) := by
  constructor
  · intro old hold
    simp only [create_workspace, if_neg hname, hold]
    refine ⟨_, rfl, ?_, rfl, ?_⟩
    · rw [load_save_workspaces]
      exact dictGet_insert_self _ _ _
    · intro t ht
      simp [ht]
  · intro hnone
    simp only [create_workspace, if_neg hname, hnone]
    refine ⟨_, rfl, ?_, rfl⟩
    rw [load_save_workspaces]
    exact dictGet_insert_self _ _ _

/-- Concrete input for the C2 witness: a fresh name on the empty store,
then the same name again. -/
def wsInputA : WS := { name := some "a" }

theorem create_workspace_created_stable_witness :
    (pyStrip (wsInputA.name.getD "") ≠ "") ∧
    (dictGet (pyStrip (wsInputA.name.getD "")) (load_workspaces get_default_data) = none →
      ∃ r, create_workspace get_default_data wsInputA "T1" = Except.ok r ∧
        dictGet (pyStrip (wsInputA.name.getD "")) (load_workspaces r.1) = some r.2 ∧
        r.2.created = some "T1") := by
  refine ⟨by decide, ?_⟩
  exact (create_workspace_created_stable get_default_data wsInputA "T1" (by decide)).2

/-- C10: for an input record whose `name` has whitespace around a
non-empty core, `create_workspace` stores the record under the trimmed
name as the map key, but the stored record's own `name` field keeps the
caller's untrimmed value, so a lookup by the trimmed key returns a record
whose `name` is not that key. -/
theorem create_workspace_key_name_mismatch (d : Doc) (input : WS) (s now : String)
    (hn : input.name = some s) (h1 : pyStrip s ≠ "") (h2 : s ≠ pyStrip s) :
    ∃ r, create_workspace d input now = Except.ok r ∧
      dictGet (pyStrip s) (load_workspaces r.1) = some r.2 ∧
      r.2.name = some s ∧ r.2.name ≠ some (pyStrip s) := by
  have hname : pyStrip (input.name.getD "") ≠ "" := by simpa [hn] using h1
  cases hold : dictGet (pyStrip s) (load_workspaces d) with
  | none =>
      simp only [create_workspace, hn, Option.getD_some, if_neg h1, hold]
      refine ⟨_, rfl, ?_, ?_, ?_⟩
      · rw [load_save_workspaces]
        exact dictGet_insert_self _ _ _
      · simp [pMerge, hn]
      · simp [pMerge, hn, h2]
  | some old =>
      simp only [create_workspace, hn, Option.getD_some, if_neg h1, hold]
      refine ⟨_, rfl, ?_, ?_, ?_⟩
      · rw [load_save_workspaces]
        exact dictGet_insert_self _ _ _
      · simp [pMerge, hn]
      · simp [pMerge, hn, h2]

/-- Concrete input for the C10 witness: name `" demo "`. -/
def wsInputDemo : WS := { name := some " demo " }

theorem create_workspace_key_name_mismatch_witness :
    (wsInputDemo.name = some " demo ") ∧ (pyStrip " demo " ≠ "") ∧ (" demo " ≠ pyStrip " demo ") ∧
    ∃ r, create_workspace get_default_data wsInputDemo "T" = Except.ok r ∧
      dictGet (pyStrip " demo ") (load_workspaces r.1) = some r.2 ∧
      r.2.name = some " demo " ∧ r.2.name ≠ some (pyStrip " demo ") := by
  refine ⟨rfl, by decide, by decide, ?_⟩
  exact create_workspace_key_name_mismatch get_default_data wsInputDemo " demo " "T"
    rfl (by decide) (by decide)

-- ============================================================
-- Groups repository
-- ============================================================

/-- `GROUP_COLORS`: the fixed default palette. -/
def GROUP_COLORS : List String :=
  ["#3fb950", "#58a6ff", "#d29922", "#a371f7", "#f85149", "#79c0ff", "#d2a8ff", "#7ee787"]

/-- `get_next_group_color()`: first palette color whose value is not among
the `color` values of the existing groups (an absent key contributes
`None`, never equal to a string), else the first palette entry. -/
def get_next_group_color (d : Doc) : String :=
  let used_colors := (load_groups d).map (fun p => p.2.color)
  match GROUP_COLORS.find? (fun color => !decide (some color ∈ used_colors)) with
  | some color => color
  | none => GROUP_COLORS.headD ""

/-- `create_group(name, color=None)`. -/
def create_group (d : Doc) (name : String) (color : Option String) :
    Except String (Doc × GroupRec) :=
  if name = "" then Except.error "Group name is required"
  else
    let groups := load_groups d
    if dictContains name groups then Except.error "Group already exists"
    else
      let g : GroupRec :=
        { order := some groups.length
          color := some (match color with
            | some c => if c = "" then get_next_group_color d else c
            | none => get_next_group_color d) }
      Except.ok (save_groups d (dictInsert name g groups), g)

/-- Body of the rename-cascade loop in `update_group`: a workspace map
entry whose record's `group` equals the old name gets the new name. -/
def cascadeGroupRename (name new_name : String) (p : String × WS) : String × WS :=
  if p.2.group = some name then (p.1, { p.2 with group := some new_name }) else p

/-- `update_group(name, new_name=None, color=None)`: returns `False` when
the group is absent, raises on rename collision, else renames (cascading
the new name onto every workspace whose `group` was the old name, and
saving the workspaces before the groups) and/or recolors. -/
def update_group (d : Doc) (name : String) (new_name color : Option String) :
    Except String (Bool × Doc) :=
  let groups := load_groups d
  if !(dictContains name groups) then Except.ok (false, d)
  else if new_name.getD "" ≠ "" ∧ new_name.getD "" ≠ name then
    if dictContains (new_name.getD "") groups then
      Except.error "Group with new name already exists"
    else
      let g := (dictGet name groups).getD {}
      let groups := dictInsert (new_name.getD "") g (dictErase name groups)
      let workspaces := (load_workspaces d).map (cascadeGroupRename name (new_name.getD ""))
      let d1 := save_workspaces d workspaces
      let groups := if color.getD "" ≠ "" then
          dictInsert (new_name.getD "")
            { (dictGet (new_name.getD "") groups).getD {} with color := some (color.getD "") }
            groups
        else groups
      Except.ok (true, save_groups d1 groups)
  else
    let groups := if color.getD "" ≠ "" then
        dictInsert name { (dictGet name groups).getD {} with color := some (color.getD "") } groups
      else groups
    Except.ok (true, save_groups d groups)

theorem load_save_groups (d : Doc) (m : Dict GroupRec) :
    load_groups (save_groups d m) = m := rfl

theorem load_workspaces_save_groups (d : Doc) (m : Dict GroupRec) :
    load_workspaces (save_groups d m) = load_workspaces d := by
  cases h : d.workspaces <;>
    simp [load_workspaces, save_groups, save_data, fillDefaults, h, get_default_data]

/-- C5: a successful rename `update_group(old, new)` (old present, new
non-empty and not colliding) rewrites `group` from the old to the new
name on every workspace that referenced the old name, leaves no workspace
referencing the old name, and leaves workspaces with any other `group`
value unchanged. -/
theorem update_group_rename_cascades (d : Doc) (old nn : String)
    (h1 : dictContains old (load_groups d) = true)
    (h2 : nn ≠ "")
    (h3 : dictContains nn (load_groups d) = false) :
    ∃ d', update_group d old (some nn) none = Except.ok (true, d') ∧
      (∀ k ws, (k, ws) ∈ load_workspaces d → ws.group = some old →
        (k, { ws with group := some nn }) ∈ load_workspaces d') ∧
      (∀ k ws, (k, ws) ∈ load_workspaces d' → ws.group ≠ some old) ∧
      (∀ k ws, (k, ws) ∈ load_workspaces d → ws.group ≠ some old →
        (k, ws) ∈ load_workspaces d') := by
  have hne : nn ≠ old := fun h => by rw [h] at h3; rw [h1] at h3; cases h3
  refine ⟨save_groups (save_workspaces d ((load_workspaces d).map (cascadeGroupRename old nn)))
      (dictInsert nn ((dictGet old (load_groups d)).getD {}) (dictErase old (load_groups d))),
    ?_, ?_, ?_, ?_⟩
  · simp [update_group, h1, h3, h2, hne]
  all_goals
    simp only [load_workspaces_save_groups, load_save_workspaces]
  · intro k ws hmem hg
    have := List.mem_map_of_mem (cascadeGroupRename old nn) hmem
    simpa [cascadeGroupRename, hg] using this
  · intro k ws hmem
    obtain ⟨⟨k0, ws0⟩, hmem0, heq⟩ := List.mem_map.mp hmem
    by_cases hg : ws0.group = some old
    · simp only [cascadeGroupRename, hg, if_pos rfl] at heq
      cases heq
      simp [hne]
    · simp only [cascadeGroupRename, if_neg hg] at heq
      cases heq
      exact hg
  · intro k ws hmem hg
    have := List.mem_map_of_mem (cascadeGroupRename old nn) hmem
    simpa [cascadeGroupRename, hg] using this

/-- Concrete store for the C5 witness: one group `g`, one workspace in it. -/
def grpG : GroupRec := { order := some 0, color := some "#3fb950" }

def wsInG : WS := { name := some "w1", group := some "g" }

def docC5 : Doc :=
  { get_default_data with workspaces := some [("w1", wsInG)], groups := some [("g", grpG)] }

theorem update_group_rename_cascades_witness :
    (dictContains "g" (load_groups docC5) = true) ∧ ("h" ≠ "") ∧
    (dictContains "h" (load_groups docC5) = false) ∧
    ∃ d', update_group docC5 "g" (some "h") none = Except.ok (true, d') ∧
      (∀ k ws, (k, ws) ∈ load_workspaces docC5 → ws.group = some "g" →
        (k, { ws with group := some "h" }) ∈ load_workspaces d') ∧
      (∀ k ws, (k, ws) ∈ load_workspaces d' → ws.group ≠ some "g") ∧
      (∀ k ws, (k, ws) ∈ load_workspaces docC5 → ws.group ≠ some "g" →
        (k, ws) ∈ load_workspaces d') :=
  ⟨by decide, by decide, by decide,
    update_group_rename_cascades docC5 "g" "h" (by decide) (by decide) (by decide)⟩

theorem find?_some_split {α : Type} (p : α → Bool) (l : List α) (c : α)
    (h : l.find? p = some c) :
    p c = true ∧ ∃ l1 l2, l = l1 ++ c :: l2 ∧ ∀ x ∈ l1, p x = false := by
  induction l with
  | nil => simp [List.find?] at h
  | cons a r ih =>
      cases hpa : p a with
      | true =>
          rw [List.find?_cons_of_pos _ hpa] at h
          cases h
          exact ⟨hpa, [], r, rfl, by simp⟩
      | false =>
          rw [List.find?_cons_of_neg _ (by simp [hpa])] at h
          obtain ⟨hp, l1, l2, hsplit, hall⟩ := ih h
          refine ⟨hp, a :: l1, l2, by simp [hsplit], ?_⟩
          intro x hx
          rcases List.mem_cons.mp hx with rfl | hx'
          · exact hpa
          · exact hall x hx'

/-- C9: `create_group(name)` with no explicit color, a non-empty name and
no collision stores a group whose `order` is the number of groups before
the call and whose `color` is the first palette entry not used by any
existing group's `color` value, falling back to the first palette entry
when every palette color is in use. -/
theorem create_group_order_color (d : Doc) (name : String)
    (h1 : name ≠ "") (h2 : dictContains name (load_groups d) = false) :
    ∃ r, create_group d name none = Except.ok r ∧
      dictGet name (load_groups r.1) = some r.2 ∧
      r.2.order = some (load_groups d).length ∧
      ∃ c, r.2.color = some c ∧
        ((some c ∉ (load_groups d).map (fun p => p.2.color) ∧
          ∃ l1 l2, GROUP_COLORS = l1 ++ c :: l2 ∧
            ∀ x ∈ l1, some x ∈ (load_groups d).map (fun p => p.2.color)) ∨
         ((∀ x ∈ GROUP_COLORS, some x ∈ (load_groups d).map (fun p => p.2.color)) ∧
          some c = GROUP_COLORS.head?)) := by
  simp only [create_group, if_neg h1, h2, Bool.false_eq_true, if_false]
  refine ⟨_, rfl, ?_, rfl, get_next_group_color d, rfl, ?_⟩
  · rw [load_save_groups]
    exact dictGet_insert_self _ _ _
  · cases hf : GROUP_COLORS.find?
        (fun color => !decide (some color ∈ (load_groups d).map (fun p => p.2.color))) with
    | some c0 =>
        left
        obtain ⟨hp, l1, l2, hsplit, hall⟩ := find?_some_split _ _ _ hf
        have hcval : get_next_group_color d = c0 := by
          simp [get_next_group_color, hf]
        rw [hcval]
        refine ⟨by simpa using hp, l1, l2, hsplit, ?_⟩
        intro x hx
        have := hall x hx
        simpa using this
    | none =>
        right
        have hcval : get_next_group_color d = GROUP_COLORS.headD "" := by
          simp [get_next_group_color, hf]
        constructor
        · intro x hx
          have := List.find?_eq_none.mp hf x hx
          simpa using this
        · rw [hcval]
          rfl

theorem create_group_order_color_witness :
    ("projects" ≠ "") ∧ (dictContains "projects" (load_groups get_default_data) = false) ∧
    ∃ r, create_group get_default_data "projects" none = Except.ok r ∧
      dictGet "projects" (load_groups r.1) = some r.2 ∧
      r.2.order = some (load_groups get_default_data).length ∧
      ∃ c, r.2.color = some c ∧
        ((some c ∉ (load_groups get_default_data).map (fun p => p.2.color) ∧
          ∃ l1 l2, GROUP_COLORS = l1 ++ c :: l2 ∧
            ∀ x ∈ l1, some x ∈ (load_groups get_default_data).map (fun p => p.2.color)) ∨
         ((∀ x ∈ GROUP_COLORS, some x ∈ (load_groups get_default_data).map (fun p => p.2.color)) ∧
          some c = GROUP_COLORS.head?)) :=
  ⟨by decide, by decide,
    create_group_order_color get_default_data "projects" (by decide) (by decide)⟩

-- ============================================================
-- History
-- ============================================================

/-- `add_history_entry(workspace_name, working_dir)`: prepend a fresh
entry (its random id and timestamp passed in) and truncate to
`settings.history_limit` (default 20) when the limit is exceeded. -/
def add_history_entry (d : Doc) (workspace_name working_dir eid now : String) : Doc :=
  let data := fillDefaults d
  let history := data.history.getD []
  let settings := data.settings.getD {}
  let limit := settings.history_limit.getD 20
  let entry : HistoryEntry :=
    { id := eid, workspace_name := workspace_name, working_dir := working_dir,
      launched_at := now }
  let history := entry :: history
  let history := if history.length > limit then history.take limit else history
  (save_data { data with history := some history }).1

/-- A store whose persisted `settings.history_limit` is `0`. -/
def docLimitZero : Doc :=
  { get_default_data with settings := some { history_limit := some 0 } }

/-- C9-counterexample store is above; C6 counterexample: with
`settings.history_limit = 0` the inserted entry is not at index 0 of the
resulting history (the list is empty), refuting the claim as stated for
every insert. -/
theorem add_history_entry_head_counterexample :
    ¬ (((add_history_entry docLimitZero "w" "/p" "i" "t").history.getD []).head?
        = some (HistoryEntry.mk "i" "w" "/p" "t")) := by decide

/-- C6 (amended): provided the effective `settings.history_limit` is at
least 1, after `add_history_entry` the history has length at most the
limit, the new entry is at index 0, and the surviving old entries are a
prefix of the previous list (so the dropped entries, if any, are the
oldest, taken from the tail). -/
theorem add_history_entry_bounded (d : Doc) (wn wd eid now : String)
    (hlim : 1 ≤ (((fillDefaults d).settings.getD {}).history_limit.getD 20)) :
    ((add_history_entry d wn wd eid now).history.getD []).length
        ≤ (((fillDefaults d).settings.getD {}).history_limit.getD 20)
    ∧ ((add_history_entry d wn wd eid now).history.getD []).head?
        = some (HistoryEntry.mk eid wn wd now)
    ∧ ∃ k, k ≤ ((fillDefaults d).history.getD []).length ∧
        (add_history_entry d wn wd eid now).history.getD []
          = HistoryEntry.mk eid wn wd now :: ((fillDefaults d).history.getD []).take k := by
  set limit := (((fillDefaults d).settings.getD {}).history_limit.getD 20) with hlimdef
  set prev := ((fillDefaults d).history.getD []) with hprevdef
  set e := HistoryEntry.mk eid wn wd now with hedef
  have hrun : (add_history_entry d wn wd eid now).history.getD []
      = if (e :: prev).length > limit then (e :: prev).take limit else e :: prev := by
    simp [add_history_entry, save_data, hlimdef, hprevdef, hedef]
  by_cases hlen : (e :: prev).length > limit
  · obtain ⟨m, hm⟩ : ∃ m, limit = m + 1 := ⟨limit - 1, (Nat.succ_pred_eq_of_pos hlim).symm⟩
    have htake : (e :: prev).take limit = e :: prev.take m := by
      rw [hm]; rfl
    have hmlen : m ≤ prev.length := by
      have : limit < (e :: prev).length := hlen
      simp only [List.length_cons, hm] at this
      omega
    rw [hrun, if_pos hlen, htake]
    refine ⟨?_, rfl, m, hmlen, rfl⟩
    simp only [List.length_cons, List.length_take]
    omega
  · rw [hrun, if_neg hlen]
    simp only [not_lt, List.length_cons] at hlen
    refine ⟨by simpa using hlen, rfl, prev.length, le_refl _, by simp⟩

theorem add_history_entry_bounded_witness :
    (1 ≤ (((fillDefaults get_default_data).settings.getD {}).history_limit.getD 20))
    ∧ (((add_history_entry get_default_data "w" "/p" "i" "t").history.getD []).length
        ≤ (((fillDefaults get_default_data).settings.getD {}).history_limit.getD 20)
      ∧ ((add_history_entry get_default_data "w" "/p" "i" "t").history.getD []).head?
        = some (HistoryEntry.mk "i" "w" "/p" "t")
      ∧ ∃ k, k ≤ ((fillDefaults get_default_data).history.getD []).length ∧
          (add_history_entry get_default_data "w" "/p" "i" "t").history.getD []
            = HistoryEntry.mk "i" "w" "/p" "t"
              :: ((fillDefaults get_default_data).history.getD []).take k) :=
  ⟨by decide, add_history_entry_bounded get_default_data "w" "/p" "i" "t" (by decide)⟩

-- ============================================================
-- Templates
-- ============================================================

def pythonProjectConfig : WS :=
  { model := some "sonnet"
    allowed_tools := some ["Read", "Edit", "Write", "Bash", "Glob", "Grep"]
    append_system_prompt := some "This is a Python project. Follow PEP 8 style guidelines and use type hints where appropriate."
    init_claude_md := some true
    claude_md_content := some "# Python Project\n\n## Setup\n- Use virtual environment (venv or conda)\n- Follow PEP 8 style guide\n- Use type hints for function signatures" }

def nodejsProjectConfig : WS :=
  { model := some "sonnet"
    allowed_tools := some ["Read", "Edit", "Write", "Bash", "Glob", "Grep"]
    append_system_prompt := some "This is a Node.js project using npm. Follow modern ES6+ conventions." }

def reactAppConfig : WS :=
  { model := some "sonnet"
    allowed_tools := some ["Read", "Edit", "Write", "Bash", "Glob", "Grep", "WebFetch"]
    append_system_prompt := some "This is a React application. Use functional components and hooks. Follow React best practices." }

def rustProjectConfig : WS :=
  { model := some "sonnet"
    allowed_tools := some ["Read", "Edit", "Write", "Bash", "Glob", "Grep"]
    append_system_prompt := some "This is a Rust project using Cargo. Follow Rust idioms and ensure memory safety." }

def generalConfig : WS :=
  { allowed_tools := some ["Read", "Edit", "Write", "Bash", "Glob", "Grep"] }

def pythonProjectTemplate : Template :=
  { name := some "Python Project", description := some "Python development with best practices",
    icon := some "python", builtin := some true, config := some pythonProjectConfig }

/-- `BUILTIN_TEMPLATES`: the fixed built-in workspace templates. -/
def BUILTIN_TEMPLATES : Dict Template :=
  [("python-project", pythonProjectTemplate),
   ("nodejs-project",
     { name := some "Node.js Project", description := some "Node.js/npm development setup",
       icon := some "nodejs", builtin := some true, config := some nodejsProjectConfig }),
   ("react-app",
     { name := some "React Application", description := some "React frontend development",
       icon := some "react", builtin := some true, config := some reactAppConfig }),
   ("rust-project",
     { name := some "Rust Project", description := some "Rust development with Cargo",
       icon := some "rust", builtin := some true, config := some rustProjectConfig }),
   ("general",
     { name := some "General Purpose", description := some "Basic workspace with common tools",
       icon := some "folder", builtin := some true, config := some generalConfig })]

/-- `load_templates()`: built-ins plus the user templates from the
document, user templates (forced `builtin=False`) overriding on id
collision. -/
def load_templates (d : Doc) : Dict Template :=
  let user_templates := (fillDefaults d).templates.getD []
  user_templates.foldl
    (fun acc p => dictInsert p.1 { p.2 with builtin := some false } acc)
    BUILTIN_TEMPLATES

/-- `create_workspace_from_template(template_id, name, working_dir="",
overrides=None)`. -/
def create_workspace_from_template (d : Doc) (template_id name working_dir : String)
    (overrides : Option WS) (now : String) : Except String (Doc × WS) :=
  let templates := load_templates d
  if !(dictContains template_id templates) then Except.error "Template not found"
  else
    let workspaces := load_workspaces d
    if dictContains name workspaces then Except.error "Workspace already exists"
    else
      let template := (dictGet template_id templates).getD {}
      let config := template.config.getD {}
      let workspace := pMerge (pMerge DEFAULT_WORKSPACE config) (overrides.getD {})
      let workspace := { workspace with
        name := some name, working_dir := some working_dir,
        template_source := some template_id, created := some now }
      Except.ok (save_workspaces d (dictInsert name workspace workspaces), workspace)

/-- The record the spec describes: the full default field set overlaid by
the template's `config` overlaid by `overrides` (overrides win over
config, config wins over defaults, key by key), with `name`,
`working_dir`, `template_source` and `created` forced afterward. -/
def templateRecordSpec (config ov : WS) (name working_dir template_id now : String) : WS :=
  { name := some name
    description := ov.description <|> config.description <|> DEFAULT_WORKSPACE.description
    working_dir := some working_dir
    additional_dirs := ov.additional_dirs <|> config.additional_dirs <|> DEFAULT_WORKSPACE.additional_dirs
    model := ov.model <|> config.model <|> DEFAULT_WORKSPACE.model
    fallback_model := ov.fallback_model <|> config.fallback_model <|> DEFAULT_WORKSPACE.fallback_model
    skip_permissions := ov.skip_permissions <|> config.skip_permissions <|> DEFAULT_WORKSPACE.skip_permissions
    permission_mode := ov.permission_mode <|> config.permission_mode <|> DEFAULT_WORKSPACE.permission_mode
    allowed_tools := ov.allowed_tools <|> config.allowed_tools <|> DEFAULT_WORKSPACE.allowed_tools
    disallowed_tools := ov.disallowed_tools <|> config.disallowed_tools <|> DEFAULT_WORKSPACE.disallowed_tools
    append_system_prompt := ov.append_system_prompt <|> config.append_system_prompt <|> DEFAULT_WORKSPACE.append_system_prompt
    system_prompt_file := ov.system_prompt_file <|> config.system_prompt_file <|> DEFAULT_WORKSPACE.system_prompt_file
    mcp_config := ov.mcp_config <|> config.mcp_config <|> DEFAULT_WORKSPACE.mcp_config
    strict_mcp := ov.strict_mcp <|> config.strict_mcp <|> DEFAULT_WORKSPACE.strict_mcp
    agent := ov.agent <|> config.agent <|> DEFAULT_WORKSPACE.agent
    verbose := ov.verbose <|> config.verbose <|> DEFAULT_WORKSPACE.verbose
    debug_categories := ov.debug_categories <|> config.debug_categories <|> DEFAULT_WORKSPACE.debug_categories
    env_vars := ov.env_vars <|> config.env_vars <|> DEFAULT_WORKSPACE.env_vars
    ide := ov.ide <|> config.ide <|> DEFAULT_WORKSPACE.ide
    open_folder_in_ide := ov.open_folder_in_ide <|> config.open_folder_in_ide <|> DEFAULT_WORKSPACE.open_folder_in_ide
    init_claude_md := ov.init_claude_md <|> config.init_claude_md <|> DEFAULT_WORKSPACE.init_claude_md
    claude_md_content := ov.claude_md_content <|> config.claude_md_content <|> DEFAULT_WORKSPACE.claude_md_content
    created := some now
    last_used := ov.last_used <|> config.last_used <|> DEFAULT_WORKSPACE.last_used
    use_count := ov.use_count <|> config.use_count <|> DEFAULT_WORKSPACE.use_count
    group := ov.group <|> config.group <|> DEFAULT_WORKSPACE.group
    template_source := some template_id }

/-- C8: for a known template id and a fresh workspace name,
`create_workspace_from_template` stores exactly the record described by
`templateRecordSpec` (defaults, overlaid by template config, overlaid by
overrides, with the four forced fields winning regardless of config or
overrides); in particular `python-project` with no overrides yields
`model = "sonnet"` and `template_source = "python-project"`. -/
theorem create_workspace_from_template_overlay (d : Doc) (tid nm wd now : String)
    (ov : Option WS) (tpl : Template)
    (htpl : dictGet tid (load_templates d) = some tpl)
    (hfree : dictContains nm (load_workspaces d) = false) :
    (∃ r, create_workspace_from_template d tid nm wd ov now = Except.ok r ∧
      dictGet nm (load_workspaces r.1) = some r.2 ∧
      r.2 = templateRecordSpec (tpl.config.getD {}) (ov.getD {}) nm wd tid now)
    ∧ (∃ r0, create_workspace_from_template get_default_data "python-project" "x" "" none "T"
          = Except.ok r0 ∧
        r0.2.model = some "sonnet" ∧ r0.2.template_source = some "python-project") := by
  constructor
  · have hcont : dictContains tid (load_templates d) = true := by
      simp [dictContains, htpl]
    simp only [create_workspace_from_template, hcont, Bool.not_true, Bool.false_eq_true,
      if_false, hfree, htpl, Option.getD_some]
    refine ⟨_, rfl, ?_, rfl⟩
    rw [load_save_workspaces]
    exact dictGet_insert_self _ _ _
  · exact ⟨_, rfl, by decide, by decide⟩

theorem create_workspace_from_template_overlay_witness :
    (dictGet "python-project" (load_templates get_default_data) = some pythonProjectTemplate) ∧
    (dictContains "x" (load_workspaces get_default_data) = false) ∧
    (∃ r, create_workspace_from_template get_default_data "python-project" "x" "" none "T"
        = Except.ok r ∧
      dictGet "x" (load_workspaces r.1) = some r.2 ∧
      r.2 = templateRecordSpec (pythonProjectTemplate.config.getD {})
        ((none : Option WS).getD {}) "x" "" "python-project" "T") :=
  ⟨by decide, by decide,
    (create_workspace_from_template_overlay get_default_data "python-project" "x" "" "T"
      none pythonProjectTemplate (by decide) (by decide)).1⟩

-- ============================================================
-- Import / Export
-- ============================================================

/-- Payload shape of a bulk export: `export_version`, `export_date`,
`workspaces` list, `groups` map (`import_workspaces` reads the lists with
empty defaults, so absent and empty keys behave alike). -/
structure ExportData where
  export_version : Nat := 1
  export_date : String := ""
  workspaces : List WS := []
  groups : Dict GroupRec := []
deriving DecidableEq

structure ImportReport where
  imported : List String := []
  skipped : List String := []
  renamed : Dict String := []
deriving DecidableEq

/-- `export_all_workspaces()`: all workspace record values plus groups. -/
def export_all_workspaces (d : Doc) (date : String) : ExportData :=
  { export_version := 1, export_date := date,
    workspaces := dictValues (load_workspaces d), groups := load_groups d }

/-- The `while new_name in workspaces` loop of the rename conflict path:
try `name-1`, `name-2`, ... and return the first free candidate.  The
candidates are pairwise distinct, so the loop ends within
`workspaces.length + 1` probes; the fuel argument only bounds that
recursion and is never exhausted when called with that value. -/
def findRenameName (workspaces : Dict WS) (name : String) : Nat → Nat → String
  | 0, counter => name ++ "-" ++ toString counter
  | fuel + 1, counter =>
      let new_name := name ++ "-" ++ toString counter
      if dictContains new_name workspaces then
        findRenameName workspaces name fuel (counter + 1)
      else new_name

/-- Completion of one imported record: `{**DEFAULT_WORKSPACE, **ws}` then
`workspace["created"] = workspace.get("created") or now`. -/
def completeImported (ws : WS) (now : String) : WS :=
  let workspace := pMerge DEFAULT_WORKSPACE ws
  { workspace with created := some (if workspace.created.getD "" = "" then now
      else workspace.created.getD "") }

/-- The `for ws in import_ws` loop of `import_workspaces`, carrying the
evolving workspace map and the `imported`/`skipped`/`renamed` reports. -/
def import_loop (conflict_resolution now : String) :
    List WS → Dict WS → List String → List String → Dict String →
    Dict WS × List String × List String × Dict String
  | [], workspaces, imported, skipped, renamed => (workspaces, imported, skipped, renamed)
  | ws :: rest, workspaces, imported, skipped, renamed =>
      let name := ws.name.getD ""
      if name = "" then
        import_loop conflict_resolution now rest workspaces imported skipped renamed
      else if dictContains name workspaces && (conflict_resolution == "skip") then
        import_loop conflict_resolution now rest workspaces imported (skipped ++ [name]) renamed
      else if dictContains name workspaces && (conflict_resolution == "rename") then
        let new_name := findRenameName workspaces name (workspaces.length + 1) 1
        import_loop conflict_resolution now rest
          (dictInsert new_name (completeImported { ws with name := some new_name } now) workspaces)
          (imported ++ [new_name]) skipped (dictInsert name new_name renamed)
      else
        import_loop conflict_resolution now rest
          (dictInsert name (completeImported ws now) workspaces)
          (imported ++ [name]) skipped renamed

/-- `import_workspaces(import_data, conflict_resolution='skip')`: raises
when the payload has no workspaces, else runs the import loop, merges
non-colliding groups (existing groups win), and saves workspaces then
groups. -/
def import_workspaces (d : Doc) (import_data : ExportData)
    (conflict_resolution : String) (now : String) :
    Except String (ImportReport × Doc) :=
  let import_ws := import_data.workspaces
  let import_groups := import_data.groups
  if import_ws = [] then Except.error "No workspaces to import"
  else
    let workspaces := load_workspaces d
    let groups := load_groups d
    let res := import_loop conflict_resolution now import_ws workspaces [] [] []
    let groups2 := import_groups.foldl
      (fun acc p => if dictContains p.1 acc then acc else dictInsert p.1 p.2 acc) groups
    Except.ok ({ imported := res.2.1, skipped := res.2.2.1, renamed := res.2.2.2 },
      save_groups (save_workspaces d res.1) groups2)

/-- A workspace record with every key present (as every record stored by
`create_workspace` is, being merged over `DEFAULT_WORKSPACE`). -/
def completeWS (w : WS) : Prop :=
  w.name.isSome = true ∧ w.description.isSome = true ∧ w.working_dir.isSome = true ∧
  w.additional_dirs.isSome = true ∧ w.model.isSome = true ∧ w.fallback_model.isSome = true ∧
  w.skip_permissions.isSome = true ∧ w.permission_mode.isSome = true ∧
  w.allowed_tools.isSome = true ∧ w.disallowed_tools.isSome = true ∧
  w.append_system_prompt.isSome = true ∧ w.system_prompt_file.isSome = true ∧
  w.mcp_config.isSome = true ∧ w.strict_mcp.isSome = true ∧ w.agent.isSome = true ∧
  w.verbose.isSome = true ∧ w.debug_categories.isSome = true ∧ w.env_vars.isSome = true ∧
  w.ide.isSome = true ∧ w.open_folder_in_ide.isSome = true ∧ w.init_claude_md.isSome = true ∧
  w.claude_md_content.isSome = true ∧ w.created.isSome = true ∧ w.last_used.isSome = true ∧
  w.use_count.isSome = true ∧ w.group.isSome = true ∧ w.template_source.isSome = true

instance (w : WS) : Decidable (completeWS w) := by
  unfold completeWS
  infer_instance

theorem pMerge_left_of_complete (a w : WS) (h : completeWS w) : pMerge a w = w := by
  obtain ⟨f1, f2, f3, f4, f5, f6, f7, f8, f9, f10, f11, f12, f13, f14, f15, f16, f17,
    f18, f19, f20, f21, f22, f23, f24, f25, f26, f27⟩ := w
  obtain ⟨h1, h2, h3, h4, h5, h6, h7, h8, h9, h10, h11, h12, h13, h14, h15, h16, h17,
    h18, h19, h20, h21, h22, h23, h24, h25, h26, h27⟩ := h
  obtain ⟨v1, rfl⟩ := Option.isSome_iff_exists.mp h1
  obtain ⟨v2, rfl⟩ := Option.isSome_iff_exists.mp h2
  obtain ⟨v3, rfl⟩ := Option.isSome_iff_exists.mp h3
  obtain ⟨v4, rfl⟩ := Option.isSome_iff_exists.mp h4
  obtain ⟨v5, rfl⟩ := Option.isSome_iff_exists.mp h5
  obtain ⟨v6, rfl⟩ := Option.isSome_iff_exists.mp h6
  obtain ⟨v7, rfl⟩ := Option.isSome_iff_exists.mp h7
  obtain ⟨v8, rfl⟩ := Option.isSome_iff_exists.mp h8
  obtain ⟨v9, rfl⟩ := Option.isSome_iff_exists.mp h9
  obtain ⟨v10, rfl⟩ := Option.isSome_iff_exists.mp h10
  obtain ⟨v11, rfl⟩ := Option.isSome_iff_exists.mp h11
  obtain ⟨v12, rfl⟩ := Option.isSome_iff_exists.mp h12
  obtain ⟨v13, rfl⟩ := Option.isSome_iff_exists.mp h13
  obtain ⟨v14, rfl⟩ := Option.isSome_iff_exists.mp h14
  obtain ⟨v15, rfl⟩ := Option.isSome_iff_exists.mp h15
  obtain ⟨v16, rfl⟩ := Option.isSome_iff_exists.mp h16
  obtain ⟨v17, rfl⟩ := Option.isSome_iff_exists.mp h17
  obtain ⟨v18, rfl⟩ := Option.isSome_iff_exists.mp h18
  obtain ⟨v19, rfl⟩ := Option.isSome_iff_exists.mp h19
  obtain ⟨v20, rfl⟩ := Option.isSome_iff_exists.mp h20
  obtain ⟨v21, rfl⟩ := Option.isSome_iff_exists.mp h21
  obtain ⟨v22, rfl⟩ := Option.isSome_iff_exists.mp h22
  obtain ⟨v23, rfl⟩ := Option.isSome_iff_exists.mp h23
  obtain ⟨v24, rfl⟩ := Option.isSome_iff_exists.mp h24
  obtain ⟨v25, rfl⟩ := Option.isSome_iff_exists.mp h25
  obtain ⟨v26, rfl⟩ := Option.isSome_iff_exists.mp h26
  obtain ⟨v27, rfl⟩ := Option.isSome_iff_exists.mp h27
  rfl

theorem completeImported_id (w : WS) (now : String) (hc : completeWS w)
    (hcr : w.created ≠ some "") : completeImported w now = w := by
  have hm : pMerge DEFAULT_WORKSPACE w = w := pMerge_left_of_complete _ _ hc
  obtain ⟨c, hcc⟩ := Option.isSome_iff_exists.mp
    (hc.2.2.2.2.2.2.2.2.2.2.2.2.2.2.2.2.2.2.2.2.2.2.1)
  have hcne : c ≠ "" := fun h => hcr (by rw [hcc, h])
  simp only [completeImported, hm, hcc, Option.getD_some, if_neg hcne]
  rw [← hcc]

theorem dictGet_append {α : Type} (x : String) (l1 l2 : Dict α) :
    dictGet x (l1 ++ l2) = ((dictGet x l1).orElse (fun _ => dictGet x l2)) := by
  induction l1 with
  | nil => simp [dictGet, Option.orElse]
  | cons p r ih =>
      obtain ⟨k, v⟩ := p
      by_cases h : k = x <;> simp [dictGet, h, ih, Option.orElse]

theorem dictContains_append {α : Type} (x : String) (l1 l2 : Dict α) :
    dictContains x (l1 ++ l2) = (dictContains x l1 || dictContains x l2) := by
  unfold dictContains
  rw [dictGet_append]
  cases dictGet x l1 <;> simp [Option.orElse]

theorem import_loop_fresh (cr now : String) (L : Dict WS) :
    ∀ acc imported skipped renamed,
      (∀ p ∈ L, p.2.name = some p.1 ∧ p.1 ≠ "" ∧ completeWS p.2 ∧ p.2.created ≠ some "") →
      (∀ p ∈ L, dictContains p.1 acc = false) →
      ((L.map Prod.fst).Nodup) →
      import_loop cr now (L.map Prod.snd) acc imported skipped renamed
        = (acc ++ L, imported ++ L.map Prod.fst, skipped, renamed) := by
  induction L with
  | nil => intro acc i s rn _ _ _; simp [import_loop]
  | cons p rest ih =>
      intro acc i s rn hprops hfresh hnodup
      obtain ⟨k, w⟩ := p
      obtain ⟨hn0, hk0, hcomp0, hcr0⟩ := hprops (k, w) (List.mem_cons_self _ _)
      have hn : w.name = some k := hn0
      have hk : k ≠ "" := hk0
      have hcomp : completeWS w := hcomp0
      have hcr : w.created ≠ some "" := hcr0
      have hfk : dictContains k acc = false := hfresh (k, w) (List.mem_cons_self _ _)
      have hins : dictInsert k (completeImported w now) acc = acc ++ [(k, w)] := by
        rw [completeImported_id w now hcomp hcr]
        exact dictInsert_of_not_contains _ _ _ hfk
      have hrest_props : ∀ q ∈ rest,
          q.2.name = some q.1 ∧ q.1 ≠ "" ∧ completeWS q.2 ∧ q.2.created ≠ some "" :=
        fun q hq => hprops q (List.mem_cons_of_mem _ hq)
      have hrest_nodup : (rest.map Prod.fst).Nodup := (List.nodup_cons.mp hnodup).2
      have hrest_fresh : ∀ q ∈ rest, dictContains q.1 (acc ++ [(k, w)]) = false := by
        intro q hq
        rw [dictContains_append]
        have h1 := hfresh q (List.mem_cons_of_mem _ hq)
        have h2 : k ≠ q.1 := by
          intro he
          apply (List.nodup_cons.mp hnodup).1
          rw [he]
          exact List.mem_map.mpr ⟨q, hq, rfl⟩
        rw [h1]
        simp only [Bool.false_or]
        simp [dictContains, dictGet, h2]
      simp only [List.map_cons, import_loop, hn, Option.getD_some, if_neg hk, hfk,
        Bool.false_and, Bool.false_eq_true, if_false, hins]
      rw [ih (acc ++ [(k, w)]) (i ++ [k]) s rn hrest_props hrest_fresh hrest_nodup]
      simp

/-- Store exhibiting the C4 counterexample: a record stored under map key
`"a"` whose own `name` field is `"b"` (exactly the situation
`create_workspace` produces for a name with surrounding whitespace). -/
def wsNamedB : WS := { name := some "b", created := some "T0" }

def docKeyMismatch : Doc := { get_default_data with workspaces := some [("a", wsNamedB)] }

/-- C4 counterexample: exporting all workspaces of `docKeyMismatch` and
importing the payload into an empty store with `overwrite` does not
reproduce the original workspace map — the import re-keys the record by
its `name` field (`"b"`), not by its original map key (`"a"`). -/
theorem export_import_roundtrip_counterexample :
    ((import_workspaces get_default_data (export_all_workspaces docKeyMismatch "D")
        "overwrite" "N").toOption.map (fun r => load_workspaces r.2))
      ≠ some (load_workspaces docKeyMismatch) := by decide

/-- C4 (amended): for a stored state whose workspace map is non-empty,
has no duplicate keys, and in which every record carries all keys, has
its `name` field equal to its (non-empty) map key and a non-empty
`created`, exporting all workspaces and importing the payload with
`conflict_resolution="overwrite"` into a store with an empty workspace
map reproduces the original workspace map exactly. -/
theorem export_import_roundtrip (d e : Doc) (date now : String)
    (he : load_workspaces e = [])
    (hne : load_workspaces d ≠ [])
    (hprops : ∀ p ∈ load_workspaces d,
      p.2.name = some p.1 ∧ p.1 ≠ "" ∧ completeWS p.2 ∧ p.2.created ≠ some "")
    (hnodup : ((load_workspaces d).map Prod.fst).Nodup) :
    ∃ r, import_workspaces e (export_all_workspaces d date) "overwrite" now = Except.ok r ∧
      load_workspaces r.2 = load_workspaces d := by
  have hne2 : (load_workspaces d).map Prod.snd ≠ [] := by
    intro h; exact hne (List.map_eq_nil_iff.mp h)
  have hloop := import_loop_fresh "overwrite" now (load_workspaces d) [] [] [] []
    hprops (fun p _ => by simp [dictContains, dictGet]) hnodup
  simp only [import_workspaces, export_all_workspaces, dictValues, if_neg hne2, he, hloop]
  refine ⟨_, rfl, ?_⟩
  rw [load_workspaces_save_groups, load_save_workspaces]
  simp

/-- A fully-populated record keyed consistently, for the C4 witness. -/
def wsCompleteA : WS := { DEFAULT_WORKSPACE with name := some "a", created := some "T0" }

def docRound : Doc := { get_default_data with workspaces := some [("a", wsCompleteA)] }

theorem export_import_roundtrip_witness :
    (load_workspaces get_default_data = []) ∧ (load_workspaces docRound ≠ []) ∧
    (∀ p ∈ load_workspaces docRound,
      p.2.name = some p.1 ∧ p.1 ≠ "" ∧ completeWS p.2 ∧ p.2.created ≠ some "") ∧
    (((load_workspaces docRound).map Prod.fst).Nodup) ∧
    ∃ r, import_workspaces get_default_data (export_all_workspaces docRound "D") "overwrite" "N"
        = Except.ok r ∧
      load_workspaces r.2 = load_workspaces docRound :=
  ⟨rfl, by decide, by decide, by decide,
    export_import_roundtrip docRound get_default_data "D" "N" rfl (by decide) (by decide)
      (by decide)⟩
